import Mathlib

/-!
# Verification of the contract scoring and classification engine

Shallow embedding of the scoring core of the `gap_eul_backend` repository:
`risk_calculator.py`, `power_analyzer.py` and `index.py`.

Modelling conventions:
* Python `str` values used as *contract text* are modelled as `List Char`
  (Python strings are sequences of code points, as is `List Char`); short
  output labels stay as Lean `String` literals.
* Python dicts are modelled as partial maps (`String → Option _`) when the
  dict is a fixed literal table, and as insertion-ordered association lists
  when the code mutates them.
* Python `dict[key]` subscripting (which raises `KeyError` on a missing key)
  is modelled in the `Except String` monad; `dict.get(key, default)` is total.
* Python floats are modelled by exact rationals.  Every float product
  `int(base_weight * multiplier)` reachable in `risk_calculator.py` was
  checked to coincide with the exact rational floor (the base weight is one
  of 30/25/20/15/10 and the multiplier one of 1.5/1.2/1.0/0.7/1.0), so the
  `ℕ`-valued model below is exact.  Python `round` is round-half-to-even.
-/

namespace GapEul

/-- A risk finding as consumed by the scorers: only `category` and `severity`
participate in scoring (`matched_text` / `location` are provenance and are
dropped).  A `none` field models a key absent from the Python dict. -/
structure Finding where
  category : Option String
  severity : Option String
deriving Repr, DecidableEq

/-- An employer-rights / employee-obligations item for the weighted balance
variants.  `text` is provenance; `severity` drives the weighting. -/
structure PowerItem where
  text : Option String
  severity : Option String
deriving Repr, DecidableEq

namespace RiskCalc

/-- `RISK_WEIGHTS` from risk_calculator.py, as a partial map (Python dict). -/
def RISK_WEIGHTS : String → Option Nat := fun c =>
  if c == "unilateral_termination" then some 30
  else if c == "excessive_damages" then some 25
  else if c == "copyright_transfer" then some 20
  else if c == "unclear_scope" then some 15
  else if c == "payment_delay" then some 10
  else none

/-- `SEVERITY_MULTIPLIER` from risk_calculator.py with every multiplier scaled
by 10 so that it stays in `ℕ`: critical 1.5→15, high 1.2→12, medium 1.0→10,
low 0.7→7. -/
def SEVERITY_MULTIPLIER10 : String → Option Nat := fun s =>
  if s == "critical" then some 15
  else if s == "high" then some 12
  else if s == "medium" then some 10
  else if s == "low" then some 7
  else none

/-- `int(base_weight * multiplier)` for one finding.  `base_weight` is
`RISK_WEIGHTS.get(category, 10)`; the multiplier is
`SEVERITY_MULTIPLIER.get(severity, 1.0)` (scaled by 10).  Division by 10 with
`ℕ`-floor agrees with Python `int(...)` on its IEEE-float product for every
base weight the code can produce. -/
def impact_score (category severity : String) : Nat :=
  (RISK_WEIGHTS category).getD 10 * (SEVERITY_MULTIPLIER10 severity).getD 10 / 10

/-- The per-finding impact as the loop body of `calculate_risk_score`
computes it, with the dict-`get` defaults `""` and `"medium"` applied. -/
def impactOf (f : Finding) : Nat :=
  impact_score (f.category.getD "") (f.severity.getD "medium")

/-- One insertion-ordered update of the `category_scores` dict:
`category_scores[category] += impact` (or first insertion). -/
def updateCat (m : List (String × Nat)) (c : String) (v : Nat) :
    List (String × Nat) :=
  if m.any (fun p => p.1 == c) then
    m.map (fun p => if p.1 == c then (p.1, p.2 + v) else p)
  else m ++ [(c, v)]

/-- Loop state of `calculate_risk_score`: running total, `category_scores`,
`findings_with_impact` (each finding paired with its `impact_score`). -/
def riskStep (acc : Nat × List (String × Nat) × List (Finding × Nat))
    (f : Finding) : Nat × List (String × Nat) × List (Finding × Nat) :=
  let impact := impactOf f
  (acc.1 + impact, updateCat acc.2.1 (f.category.getD "") impact,
    acc.2.2 ++ [(f, impact)])

/-- `_calculate_grade` from risk_calculator.py. -/
def calculate_grade (score : Nat) : String :=
  if score ≥ 80 then "F (매우 위험)"
  else if score ≥ 60 then "D (위험)"
  else if score ≥ 40 then "C (주의 필요)"
  else if score ≥ 20 then "B (보통)"
  else "A (안전)"

/-- Result record of `calculate_risk_score`. -/
structure RiskResult where
  total_score : Nat
  grade : String
  category_scores : List (String × Nat)
  findings_with_impact : List (Finding × Nat)
deriving Repr, DecidableEq

/-- `calculate_risk_score` from risk_calculator.py: empty input short-circuits
to the neutral record; otherwise the loop accumulates, the total is capped at
100 (`min(total_score, 100)`) and graded. -/
def calculate_risk_score (findings : List Finding) : RiskResult :=
  if findings.isEmpty then
    { total_score := 0, grade := "A (안전)", category_scores := [],
      findings_with_impact := [] }
  else
    let r := findings.foldl riskStep (0, [], [])
    let total := min r.1 100
    { total_score := total, grade := calculate_grade total,
      category_scores := r.2.1, findings_with_impact := r.2.2 }

end RiskCalc

/-- Left-to-right scan counting non-overlapping occurrences of a nonempty
`needle`, with an explicit fuel so the recursion is structural (and hence
kernel-reducible).  Each step consumes at least one character of `hay`, so
any fuel of at least `hay.length` yields the exact count. -/
def countOccsGo (needle : List Char) : Nat → List Char → Nat
  | 0, _ => 0
  | _ + 1, [] => 0
  | fuel + 1, c :: rest =>
    if List.isPrefixOf needle (c :: rest) then
      1 + countOccsGo needle fuel (List.drop (needle.length - 1) rest)
    else
      countOccsGo needle fuel rest

/-- Python `str.count(sub)`: number of non-overlapping occurrences, scanning
left to right and skipping past each match.  For the empty needle Python
returns `len(s) + 1`, reproduced here. -/
def countOccs (needle hay : List Char) : Nat :=
  match needle with
  | [] => hay.length + 1
  | _ :: _ => countOccsGo needle hay.length hay

/-- Sum of keyword occurrence counts over a keyword list, as the generator
expressions `sum(text.count(kw) for kw in KEYWORDS)` compute it. -/
def countKeywords (keywords : List String) (text : List Char) : Nat :=
  (keywords.map (fun kw => countOccs kw.data text)).sum

/-- Floor of a rational, written with integer floor-division so that it
evaluates inside the kernel. -/
def ratFloor (q : ℚ) : ℤ :=
  q.num.fdiv q.den

/-- Python `round` on an exact rational: nearest integer, ties to even
(banker's rounding). -/
def pyRound (q : ℚ) : ℤ :=
  let f := ratFloor q
  let r := q - (f : ℚ)
  if r < 1 / 2 then f
  else if r > 1 / 2 then f + 1
  else if f % 2 = 0 then f else f + 1

/-- Python `round(x, 2)`: round to two decimal places, ties to even. -/
def pyRound2 (q : ℚ) : ℚ :=
  (pyRound (q * 100) : ℚ) / 100

/-- Python `chunk.strip()` is falsy exactly when every character is
whitespace (in particular for the empty chunk). -/
def stripEmpty (chunk : List Char) : Bool :=
  chunk.all Char.isWhitespace

/-- Python `text.split(sep)` for the single-character separator used by the
chunker: split at every occurrence, keeping empty fragments. -/
def splitOnChar (sep : Char) : List Char → List (List Char)
  | [] => [[]]
  | c :: rest =>
    if c = sep then [] :: splitOnChar sep rest
    else
      match splitOnChar sep rest with
      | [] => [[c]]
      | h :: t => (c :: h) :: t

/-- Python `[text[i:i+cs] for i in range(0, len(text), cs)]` (fixed-size
slicing).  A step of 0 raises `ValueError` in Python and is never used by the
code (the chunk size is 500); the `0` case here returns `[]`. -/
def slicesOf : List Char → Nat → List (List Char)
  | [], _ => []
  | _ :: _, 0 => []
  | x :: xs, cs + 1 =>
    List.take (cs + 1) (x :: xs) :: slicesOf (List.drop cs xs) (cs + 1)
termination_by l _ => l.length
decreasing_by
  simp only [List.length_cons, List.length_drop]
  omega

namespace PowerAnalyzer

/-- `EMPLOYER_RIGHTS_KEYWORDS` from power_analyzer.py. -/
def EMPLOYER_RIGHTS_KEYWORDS : List String :=
  ["해지할 수 있다", "변경할 수 있다", "요구할 수 있다",
   "결정한다", "지시한다", "승인", "거부할 수 있다",
   "중단할 수 있다", "요청할 수 있다"]

/-- `EMPLOYEE_OBLIGATIONS_KEYWORDS` from power_analyzer.py. -/
def EMPLOYEE_OBLIGATIONS_KEYWORDS : List String :=
  ["하여야 한다", "의무를 진다", "책임을 진다",
   "배상", "금지", "제한", "승인을 받아야",
   "통보하여야", "준수하여야"]

/-- `_determine_power_level` from power_analyzer.py: classifies the balance
ratio into a power-level label (Korean: "갑 절대우위" = absolute employer
dominance, "갑 우위" = employer dominance, "약간 갑 우위" = slightly employer
favored, "균형적" = balanced, "을 우위" = employee favored) and a fairness
score. -/
def determine_power_level (ratio : ℚ) : String × Nat :=
  if ratio > 3 then ("갑 절대우위 (극도로 불공정)", 10)
  else if ratio > 2 then ("갑 우위 (매우 불공정)", 30)
  else if ratio > 3 / 2 then ("갑 우위 (불공정)", 50)
  else if ratio > 6 / 5 then ("약간 갑 우위", 70)
  else if ratio ≥ 4 / 5 then ("균형적", 90)
  else ("을 우위 (드문 경우)", 95)

/-- `_generate_recommendations` from power_analyzer.py: threshold-driven
advice strings plus two absolute-count heuristics. -/
def generate_recommendations (ratio : ℚ) (employer_count employee_count : Nat) :
    List String :=
  let base : List String :=
    if ratio > 5 / 2 then
      ["[긴급] 이 계약서는 극도로 불공정합니다.",
       "[제안] 상호 해지권 명시를 강력히 요청하세요",
       "[제안] 손해배상 상한선 설정을 협의하세요",
       "[제안] 업무 범위를 구체적으로 명시할 것을 요구하세요"]
    else if ratio > 2 then
      ["[주의] 계약서가 상당히 불공정합니다.",
       "[제안] 핵심 조항 재협상을 권장합니다",
       "[제안] 일방적 해지권 조항을 상호 조항으로 변경 요청"]
    else if ratio > 3 / 2 then
      ["[검토] 일부 조항 검토가 필요합니다.",
       "[제안] 불리한 조항 2-3개를 선택해 협상하세요"]
    else
      ["[안전] 비교적 균형잡힌 계약서입니다."]
  let withMany :=
    if employee_count > 30 then
      base ++ [s!"[경고] 을의 의무가 {employee_count}개로 과다합니다. 핵심 의무만 남기고 삭제 협의하세요."]
    else base
  if employer_count < 5 ∧ employee_count > 10 then
    withMany ++ [s!"[경고] 갑의 의무가 {employer_count}개로 너무 적습니다. 상호 의무 조항 추가를 요청하세요."]
  else withMany

/-- Result record shared by the power_analyzer variants.  `processing_method`
is `some "chunked"` only on the chunked path (the key is absent otherwise);
the weighted variant additionally fills the weighted scores and the severity
breakdown. -/
structure PABalanceRec where
  balance_ratio : ℚ
  power_level : String
  employer_rights_count : Nat
  employee_obligations_count : Nat
  fairness_score : Nat
  recommendations : List String
  processing_method : Option String
deriving Repr, DecidableEq

/-- `analyze_power_balance` returns either an error record
(`{"error": ...}`) or a result record. -/
inductive PABalance where
  | err (message : String)
  | ok (r : PABalanceRec)
deriving Repr, DecidableEq

/-- The balance ratio: `employee / employer`, or the raw employee score when
the employer score is zero (explicit division-by-zero avoidance in the
source). -/
def balanceRatio (employer employee : ℚ) : ℚ :=
  if employer = 0 then employee else employee / employer

/-- The single-pass body of `analyze_power_balance` (text at most 1000
characters): full-text keyword counts, ratio, level, recommendations. -/
def pa_single_result (text : List Char) : PABalanceRec :=
  let employer_count := countKeywords EMPLOYER_RIGHTS_KEYWORDS text
  let employee_count := countKeywords EMPLOYEE_OBLIGATIONS_KEYWORDS text
  let ratio := balanceRatio employer_count employee_count
  let lv := determine_power_level ratio
  { balance_ratio := pyRound2 ratio,
    power_level := lv.1,
    employer_rights_count := employer_count,
    employee_obligations_count := employee_count,
    fairness_score := lv.2,
    recommendations := generate_recommendations ratio employer_count employee_count,
    processing_method := none }

/-- The splitting strategy of `analyze_power_balance_chunked`: split on every
`'제'` when both article-marker characters occur, else fixed-size slices. -/
def paChunks (text : List Char) (chunk_size : Nat) : List (List Char) :=
  if '제' ∈ text ∧ '조' ∈ text then splitOnChar '제' text
  else slicesOf text chunk_size

/-- The chunk loop of `analyze_power_balance_chunked`: whitespace-only chunks
are skipped, per-chunk employer/employee keyword counts are summed. -/
def paChunkTotals (chunks : List (List Char)) : Nat × Nat :=
  chunks.foldl
    (fun acc chunk =>
      if stripEmpty chunk then acc
      else (acc.1 + countKeywords EMPLOYER_RIGHTS_KEYWORDS chunk,
            acc.2 + countKeywords EMPLOYEE_OBLIGATIONS_KEYWORDS chunk))
    (0, 0)

/-- The body of `analyze_power_balance_chunked` past its delegation check:
chunk, sum counts, then score exactly as the single-pass body does, tagging
the record with `processing_method = "chunked"`. -/
def pa_chunked_body (text : List Char) (chunk_size : Nat) : PABalanceRec :=
  let t := paChunkTotals (paChunks text chunk_size)
  let ratio := balanceRatio t.1 t.2
  let lv := determine_power_level ratio
  { balance_ratio := pyRound2 ratio,
    power_level := lv.1,
    employer_rights_count := t.1,
    employee_obligations_count := t.2,
    fairness_score := lv.2,
    recommendations := generate_recommendations ratio t.1 t.2,
    processing_method := some "chunked" }

/-- `analyze_power_balance` from power_analyzer.py: empty text yields the
error record; text longer than 1000 characters is delegated to the chunked
variant with its default chunk size 500; otherwise a single full-text pass. -/
def analyze_power_balance (contract_text : List Char) : PABalance :=
  if contract_text.isEmpty then .err "계약서 내용이 없습니다"
  else if contract_text.length > 1000 then .ok (pa_chunked_body contract_text 500)
  else .ok (pa_single_result contract_text)

/-- `analyze_power_balance_chunked` from power_analyzer.py.  Text no longer
than the chunk size is delegated back to `analyze_power_balance`; with the
default chunk size 500 that delegate always takes its single-pass (or error)
branch, which the model mirrors. -/
def analyze_power_balance_chunked (contract_text : List Char) (chunk_size : Nat) :
    PABalance :=
  if contract_text.length ≤ chunk_size then analyze_power_balance contract_text
  else .ok (pa_chunked_body contract_text chunk_size)

/-- `calculate_power_balance_from_counts` from power_analyzer.py. -/
def calculate_power_balance_from_counts (employer_count employee_count : Nat) :
    PABalanceRec :=
  let ratio := balanceRatio employer_count employee_count
  let lv := determine_power_level ratio
  { balance_ratio := pyRound2 ratio,
    power_level := lv.1,
    employer_rights_count := employer_count,
    employee_obligations_count := employee_count,
    fairness_score := lv.2,
    recommendations := generate_recommendations ratio employer_count employee_count,
    processing_method := none }

/-- The `severity_weights` dict local to `calculate_power_balance_weighted`
(critical 3.0, high 2.0, medium 1.0, low 0.5), as a partial map into `ℚ`. -/
def severity_weights_pa : String → Option ℚ := fun s =>
  if s == "critical" then some 3
  else if s == "high" then some 2
  else if s == "medium" then some 1
  else if s == "low" then some (1 / 2)
  else none

/-- One item's weight: `severity_weights.get(item.get("severity", "medium"), 1.0)`. -/
def paItemWeight (item : PowerItem) : ℚ :=
  (severity_weights_pa (item.severity.getD "medium")).getD 1

/-- A side's weighted score: the sum of its items' severity weights. -/
def paWeighted (items : List PowerItem) : ℚ :=
  (items.map paItemWeight).sum

/-- Association-list update `d[k] = v` (insertion-ordered, adds the key when
absent) for the severity-breakdown dicts. -/
def dictSet (m : List (String × Nat)) (k : String) (v : Nat) :
    List (String × Nat) :=
  if m.any (fun p => p.1 == k) then
    m.map (fun p => if p.1 == k then (p.1, v) else p)
  else m ++ [(k, v)]

/-- Association-list read `d.get(k)`. -/
def dictGet? (m : List (String × Nat)) (k : String) : Option Nat :=
  (m.find? (fun p => p.1 == k)).map (fun p => p.2)

/-- One side of `_analyze_severity_breakdown`:
`breakdown[side][severity] = breakdown[side].get(severity, 0) + 1` over the
initial dict `{"critical": 0, "high": 0, "medium": 0, "low": 0}`. -/
def breakdownSide (items : List PowerItem) : List (String × Nat) :=
  items.foldl
    (fun m item =>
      let severity := item.severity.getD "medium"
      dictSet m severity ((dictGet? m severity).getD 0 + 1))
    [("critical", 0), ("high", 0), ("medium", 0), ("low", 0)]

/-- Result record of `calculate_power_balance_weighted`. -/
structure PAWeightedRec where
  balance_ratio : ℚ
  power_level : String
  employer_rights_count : Nat
  employee_obligations_count : Nat
  employer_weighted_score : ℚ
  employee_weighted_score : ℚ
  fairness_score : Nat
  recommendations : List String
  severity_breakdown_employer : List (String × Nat)
  severity_breakdown_employee : List (String × Nat)
deriving Repr, DecidableEq

/-- `calculate_power_balance_weighted` from power_analyzer.py: severity
weights 3.0/2.0/1.0/0.5 (default 1.0), weighted ratio, level,
recommendations on the raw counts, severity breakdown.
`round(x, 1)` on the weighted scores is modelled exactly (the scores are
multiples of 0.5, so the rounding is the identity). -/
def calculate_power_balance_weighted (employer_items employee_items : List PowerItem) :
    PAWeightedRec :=
  let employer_weighted := paWeighted employer_items
  let employee_weighted := paWeighted employee_items
  let employer_count := employer_items.length
  let employee_count := employee_items.length
  let ratio := balanceRatio employer_weighted employee_weighted
  let lv := determine_power_level ratio
  { balance_ratio := pyRound2 ratio,
    power_level := lv.1,
    employer_rights_count := employer_count,
    employee_obligations_count := employee_count,
    employer_weighted_score := employer_weighted,
    employee_weighted_score := employee_weighted,
    fairness_score := lv.2,
    recommendations := generate_recommendations ratio employer_count employee_count,
    severity_breakdown_employer := breakdownSide employer_items,
    severity_breakdown_employee := breakdownSide employee_items }

end PowerAnalyzer

namespace Index

/-- The `severity_weights` dict local to `analyze_contract_risk` in index.py
(critical 10, high 7, medium 4, low 2), as a partial map. -/
def severity_weights_idx : String → Option Nat := fun s =>
  if s == "critical" then some 10
  else if s == "high" then some 7
  else if s == "medium" then some 4
  else if s == "low" then some 2
  else none

/-- The static `category_names` echo table of `analyze_contract_risk`. -/
def category_names : List (String × String) :=
  [("unilateral_termination", "일방적 계약 해지"),
   ("excessive_damages", "과도한 손해배상"),
   ("copyright_transfer", "저작권 전면 이전"),
   ("unclear_scope", "불명확한 업무 범위"),
   ("payment_delay", "대금 지급 지연")]

/-- The dict literal `{"critical": 0, "high": 0, "medium": 0, "low": 0}`
used for severity counting in index.py. -/
structure SevCounts where
  critical : Nat
  high : Nat
  medium : Nat
  low : Nat
deriving Repr, DecidableEq

/-- `severity_counts[severity] += 1`: Python dict subscripting raises
`KeyError` when `severity` is not one of the four keys of the literal. -/
def SevCounts.incr (sc : SevCounts) (severity : String) : Except String SevCounts :=
  if severity == "critical" then .ok { sc with critical := sc.critical + 1 }
  else if severity == "high" then .ok { sc with high := sc.high + 1 }
  else if severity == "medium" then .ok { sc with medium := sc.medium + 1 }
  else if severity == "low" then .ok { sc with low := sc.low + 1 }
  else .error "KeyError"

/-- Insertion-ordered dict update
`category_counts[category] = category_counts.get(category, 0) + 1`. -/
def catIncr (m : List (String × Nat)) (c : String) : List (String × Nat) :=
  if m.any (fun p => p.1 == c) then
    m.map (fun p => if p.1 == c then (p.1, p.2 + 1) else p)
  else m ++ [(c, 1)]

/-- The scoring loop of `analyze_contract_risk`: accumulates
`severity_weights.get(severity, 0)` into the total, counts categories
(total `dict.get`), and counts severities (fallible dict subscripting). -/
def riskLoop (fs : List Finding) (total : Nat) (catCounts : List (String × Nat))
    (sevCounts : SevCounts) :
    Except String (Nat × List (String × Nat) × SevCounts) :=
  match fs with
  | [] => .ok (total, catCounts, sevCounts)
  | f :: rest =>
    let severity := f.severity.getD "low"
    let category := f.category.getD ""
    match sevCounts.incr severity with
    | .error e => .error e
    | .ok sc =>
      riskLoop rest (total + (severity_weights_idx severity).getD 0)
        (catIncr catCounts category) sc

/-- Result record of index.py's `analyze_contract_risk`.  `recommendations`
is the literal three-element Python list whose last two entries may be
`None`. -/
structure IndexRiskResult where
  total_score : Nat
  risk_level : String
  risk_color : String
  findings_count : Nat
  severity_counts : SevCounts
  category_counts : List (String × Nat)
  category_names : List (String × String)
  recommendations : List (Option String)
deriving Repr, DecidableEq

/-- `analyze_contract_risk` from index.py: uncapped sum of per-severity
weights (critical 10, high 7, medium 4, low 2; missing severity defaults to
"low"), threshold risk level, and a `KeyError` (modelled as `Except.error`)
whenever a present severity value is outside the four known keys. -/
def analyze_contract_risk (findings : List Finding) :
    Except String IndexRiskResult :=
  match riskLoop findings 0 [] ⟨0, 0, 0, 0⟩ with
  | .error e => .error e
  | .ok (total_score, category_counts, severity_counts) =>
    let lv : String × String :=
      if total_score ≥ 30 then ("매우 위험", "red")
      else if total_score ≥ 20 then ("위험", "orange")
      else if total_score ≥ 10 then ("주의", "yellow")
      else ("양호", "green")
    .ok
      { total_score := total_score,
        risk_level := lv.1,
        risk_color := lv.2,
        findings_count := findings.length,
        severity_counts := severity_counts,
        category_counts := category_counts,
        category_names := category_names,
        recommendations :=
          [some (if total_score ≥ 20 then "전문가와 계약서 검토를 권장합니다."
                 else "계약 체결 전 신중한 검토가 필요합니다."),
           if severity_counts.critical > 0 then
             some "불리한 조항에 대해 수정을 요청하세요." else none,
           if total_score ≥ 30 then
             some "계약서 작성 시 법률 자문을 받는 것을 고려하세요." else none] }

/-- `employer_keywords` local to index.py's `analyze_power_balance`. -/
def employer_keywords : List String :=
  ["갑은", "갑이", "발주자는", "발주자가", "회사는", "회사가",
   "임의로", "일방적으로", "언제든지", "즉시", "통보 없이",
   "해지할 수 있다", "중단할 수 있다", "변경할 수 있다",
   "지시", "명령", "요구", "승인", "결정"]

/-- `employee_keywords` local to index.py's `analyze_power_balance`. -/
def employee_keywords : List String :=
  ["을은", "을이", "수급자는", "수급자가", "프리랜서는", "프리랜서가",
   "반드시", "의무", "책임", "준수", "이행", "제출",
   "배상", "손해", "위약금", "벌금",
   "금지", "제한", "불가", "할 수 없다"]

/-- Result record of index.py's `analyze_power_balance`. -/
structure IndexBalanceRec where
  balance_score : ℤ
  balance_level : String
  balance_color : String
  employer_rights_count : Nat
  employee_obligations_count : Nat
  analysis : String
deriving Repr, DecidableEq

/-- `analyze_power_balance` from index.py: full-text keyword counts, the
percentage score `round((employee / total) * 100)` (50 when the counts sum
to zero) and the threshold classification ("을에게 매우 불리" = very
unfavorable to the employee, "을에게 불리" = unfavorable to the employee,
"균형적" = balanced, "갑에게 불리" = unfavorable to the employer,
"갑에게 매우 불리" = very unfavorable to the employer). -/
def analyze_power_balance (contract_text : List Char) : IndexBalanceRec :=
  let employer_count := countKeywords employer_keywords contract_text
  let employee_count := countKeywords employee_keywords contract_text
  let total := employer_count + employee_count
  let balance_score : ℤ :=
    if total = 0 then 50
    else pyRound (((employee_count : ℚ) / (total : ℚ)) * 100)
  let lv : String × String :=
    if balance_score ≥ 70 then ("을에게 매우 불리", "red")
    else if balance_score ≥ 60 then ("을에게 불리", "orange")
    else if balance_score ≥ 40 then ("균형적", "green")
    else if balance_score ≥ 30 then ("갑에게 불리", "orange")
    else ("갑에게 매우 불리", "red")
  { balance_score := balance_score,
    balance_level := lv.1,
    balance_color := lv.2,
    employer_rights_count := employer_count,
    employee_obligations_count := employee_count,
    analysis := s!"계약서에서 갑의 권리 표현이 {employer_count}회, 을의 의무 표현이 {employee_count}회 발견되었습니다." }

/-- Result record of index.py's `analyze_power_balance_fast`. -/
structure IndexFastRec where
  balance_score : ℤ
  balance_level : String
  balance_color : String
  employer_rights_count : Nat
  employee_obligations_count : Nat
  employer_indicators : List String
  employee_indicators : List String
  analysis : String
deriving Repr, DecidableEq

/-- `analyze_power_balance_fast` from index.py: the counts are the lengths of
the caller-supplied indicator lists; scoring and thresholds are as in
`analyze_power_balance`. -/
def analyze_power_balance_fast (employee_indicators employer_indicators : List String) :
    IndexFastRec :=
  let employer_count := employer_indicators.length
  let employee_count := employee_indicators.length
  let total := employer_count + employee_count
  let balance_score : ℤ :=
    if total = 0 then 50
    else pyRound (((employee_count : ℚ) / (total : ℚ)) * 100)
  let lv : String × String :=
    if balance_score ≥ 70 then ("을에게 매우 불리", "red")
    else if balance_score ≥ 60 then ("을에게 불리", "orange")
    else if balance_score ≥ 40 then ("균형적", "green")
    else if balance_score ≥ 30 then ("갑에게 불리", "orange")
    else ("갑에게 매우 불리", "red")
  { balance_score := balance_score,
    balance_level := lv.1,
    balance_color := lv.2,
    employer_rights_count := employer_count,
    employee_obligations_count := employee_count,
    employer_indicators := employer_indicators.take 10,
    employee_indicators := employee_indicators.take 10,
    analysis := s!"갑의 권리 표현 {employer_count}개, 을의 의무 표현 {employee_count}개가 발견되었습니다." }

/-- Result record of index.py's `calculate_power_score`. -/
structure PowerScoreRec where
  balance_score : ℤ
  balance_level : String
  balance_color : String
  employer_rights_count : Nat
  employee_obligations_count : Nat
deriving Repr, DecidableEq

/-- `calculate_power_score` from index.py: the pre-counted percentage-scale
balance computation `round((employee / (employee + employer)) * 100)` with
the zero-total neutral midpoint 50, and the threshold classification. -/
def calculate_power_score (employee_obligations_count employer_rights_count : Nat) :
    PowerScoreRec :=
  let total := employee_obligations_count + employer_rights_count
  let balance_score : ℤ :=
    if total = 0 then 50
    else pyRound (((employee_obligations_count : ℚ) / (total : ℚ)) * 100)
  let lv : String × String :=
    if balance_score ≥ 70 then ("을에게 매우 불리", "red")
    else if balance_score ≥ 60 then ("을에게 불리", "orange")
    else if balance_score ≥ 40 then ("균형적", "green")
    else if balance_score ≥ 30 then ("갑에게 불리", "orange")
    else ("갑에게 매우 불리", "red")
  { balance_score := balance_score,
    balance_level := lv.1,
    balance_color := lv.2,
    employer_rights_count := employer_rights_count,
    employee_obligations_count := employee_obligations_count }

/-- The `severity_weights` dict local to index.py's
`analyze_power_balance_weighted` (critical 4, high 3, medium 2, low 1). -/
def severity_weights_w : String → Option Nat := fun s =>
  if s == "critical" then some 4
  else if s == "high" then some 3
  else if s == "medium" then some 2
  else if s == "low" then some 1
  else none

/-- One item's weight on index.py's weighted path:
`severity_weights.get(item.get("severity", "medium"), 2)`. -/
def wItemWeight (item : PowerItem) : Nat :=
  (severity_weights_w (item.severity.getD "medium")).getD 2

/-- A side's weighted score in `analyze_power_balance_weighted`. -/
def wScore (items : List PowerItem) : Nat :=
  (items.map wItemWeight).sum

/-- The severity-count loop of `analyze_power_balance_weighted`:
`counts[item.get("severity", "medium")] += 1`, raising `KeyError` on a
severity outside the four dict keys. -/
def wSevLoop (items : List PowerItem) (sc : SevCounts) : Except String SevCounts :=
  match items with
  | [] => .ok sc
  | item :: rest =>
    match sc.incr (item.severity.getD "medium") with
    | .error e => .error e
    | .ok sc => wSevLoop rest sc

/-- Result record of index.py's `analyze_power_balance_weighted`. -/
structure IndexWeightedRec where
  balance_score : ℤ
  balance_level : String
  balance_color : String
  employer_weighted_score : Nat
  employee_weighted_score : Nat
  employer_rights_count : Nat
  employee_obligations_count : Nat
  employer_severity_breakdown : SevCounts
  employee_severity_breakdown : SevCounts
  recommendation : String
  employer_items_sample : List PowerItem
  employee_items_sample : List PowerItem
deriving Repr, DecidableEq

/-- `analyze_power_balance_weighted` from index.py: integer severity weights
4/3/2/1 (default 2), percentage score over the weighted totals, threshold
classification with an attached recommendation, and fallible severity
breakdown counting (`KeyError` on an unknown present severity, exactly as the
Python dict subscripting raises after the scores are computed). -/
def analyze_power_balance_weighted (employee_items employer_items : List PowerItem) :
    Except String IndexWeightedRec :=
  let employer_score := wScore employer_items
  let employee_score := wScore employee_items
  let total_score := employer_score + employee_score
  let balance_score : ℤ :=
    if total_score = 0 then 50
    else pyRound (((employee_score : ℚ) / (total_score : ℚ)) * 100)
  let lv : String × String × String :=
    if balance_score ≥ 70 then
      ("을에게 매우 불리", "red",
       "계약서에 을에게 과도하게 불리한 조항이 많습니다. 전문가와 상담 후 재협상을 강력히 권장합니다.")
    else if balance_score ≥ 60 then
      ("을에게 불리", "orange", "을에게 불리한 조항들이 있습니다. 주요 조항에 대한 수정을 요청하세요.")
    else if balance_score ≥ 40 then
      ("균형적", "green", "비교적 균형잡힌 계약서입니다. 세부 조항을 꼼꼼히 확인하세요.")
    else if balance_score ≥ 30 then
      ("갑에게 불리", "orange", "갑에게 불리한 조항들이 있습니다.")
    else ("갑에게 매우 불리", "red", "갑에게 과도하게 불리한 계약서입니다.")
  match wSevLoop employee_items ⟨0, 0, 0, 0⟩ with
  | .error e => .error e
  | .ok employee_severity =>
    match wSevLoop employer_items ⟨0, 0, 0, 0⟩ with
    | .error e => .error e
    | .ok employer_severity =>
      .ok
        { balance_score := balance_score,
          balance_level := lv.1,
          balance_color := lv.2.1,
          employer_weighted_score := employer_score,
          employee_weighted_score := employee_score,
          employer_rights_count := employer_items.length,
          employee_obligations_count := employee_items.length,
          employer_severity_breakdown := employer_severity,
          employee_severity_breakdown := employee_severity,
          recommendation := lv.2.2,
          employer_items_sample := employer_items.take 5,
          employee_items_sample := employee_items.take 5 }

end Index

/-- Decidable equality for `Except` results, so that concrete outcomes of
the fallible index.py entry points can be checked by evaluation. -/
instance exceptDecEq {ε α : Type} [DecidableEq ε] [DecidableEq α] :
    DecidableEq (Except ε α)
  | .error a, .error b =>
    if h : a = b then .isTrue (by rw [h])
    else .isFalse (by intro hc; cases hc; exact h rfl)
  | .error _, .ok _ => .isFalse (by intro hc; cases hc)
  | .ok _, .error _ => .isFalse (by intro hc; cases hc)
  | .ok a, .ok b =>
    if h : a = b then .isTrue (by rw [h])
    else .isFalse (by intro hc; cases hc; exact h rfl)

/-- The four severity values every weight table of the repository knows;
everything else hits a dict default (or, on the `index.py` counting paths, a
`KeyError`). -/
def knownSeverity (s : String) : Bool :=
  s == "critical" || s == "high" || s == "medium" || s == "low"

/-- The four known severities with their strict order
low < medium < high < critical, used to state monotonicity claims. -/
inductive Sev where
  | low
  | medium
  | high
  | critical
deriving Repr, DecidableEq, Fintype

/-- Rank of a severity in the order low < medium < high < critical. -/
def Sev.rank : Sev → Nat
  | .low => 0
  | .medium => 1
  | .high => 2
  | .critical => 3

/-- The severity's string as it appears in a finding dict. -/
def Sev.str : Sev → String
  | .low => "low"
  | .medium => "medium"
  | .high => "high"
  | .critical => "critical"

namespace RiskCalc

/-- Position of a grade string on the risk scale, "F (매우 위험)" = 0 being
the worst and "A (안전)" = 4 the safest; "the grade moves toward F" means
this value does not increase. -/
def gradeLevel (g : String) : Nat :=
  if g == "F (매우 위험)" then 0
  else if g == "D (위험)" then 1
  else if g == "C (주의 필요)" then 2
  else if g == "B (보통)" then 3
  else 4

end RiskCalc

namespace PowerAnalyzer

/-- Whether `analyze_power_balance` produced the error record. -/
def PABalance.isErr : PABalance → Bool
  | .err _ => true
  | .ok _ => false

/-- The `employee_obligations_count` of a balance outcome, when there is
one. -/
def PABalance.employeeCount? : PABalance → Option Nat
  | .err _ => none
  | .ok r => some r.employee_obligations_count

/-- The `employer_rights_count` of a balance outcome, when there is one. -/
def PABalance.employerCount? : PABalance → Option Nat
  | .err _ => none
  | .ok r => some r.employer_rights_count

/-- A text on which `analyze_power_balance_chunked` takes the article-marker
splitting branch: longer than the 500-character chunk size, containing both
marker characters '제' and '조', and containing exactly one keyword
occurrence — the employee-obligations keyword "제한", which itself contains
the split character '제'. -/
def articleMarkerText : List Char :=
  '제' :: '한' :: '조' :: List.replicate 499 'x'

end PowerAnalyzer

namespace SpecModel

/-- Modelled from the spec: the percentage-convention formula
`balance_score = round(employee / (employee + employer) × 100)`, with
`employee + employer == 0` mapping to exactly 50. -/
def spec_balance_score (employee employer : Nat) : ℤ :=
  if employee + employer = 0 then 50
  else pyRound (((employee : ℚ) / ((employee + employer : Nat) : ℚ)) * 100)

/-- Modelled from the spec: the percentage-convention thresholds — ≥70 "very
unfavorable to employee" (을에게 매우 불리), ≥60 "unfavorable to employee"
(을에게 불리), ≥40 "balanced" (균형적), ≥30 "unfavorable to employer"
(갑에게 불리), else "very unfavorable to employer" (갑에게 매우 불리). -/
def spec_balance_level (score : ℤ) : String :=
  if score ≥ 70 then "을에게 매우 불리"
  else if score ≥ 60 then "을에게 불리"
  else if score ≥ 40 then "균형적"
  else if score ≥ 30 then "갑에게 불리"
  else "갑에게 매우 불리"

end SpecModel

/-! ## Helper lemmas -/

theorem riskFold_total (fs : List Finding) :
    ∀ acc : Nat × List (String × Nat) × List (Finding × Nat),
      (fs.foldl RiskCalc.riskStep acc).1 = acc.1 + (fs.map RiskCalc.impactOf).sum := by
  induction fs with
  | nil => intro acc; simp
  | cons f rest ih =>
    intro acc
    simp only [List.foldl_cons, List.map_cons, List.sum_cons, ih, RiskCalc.riskStep]
    omega

theorem riskWeights_getD_ge (c : String) : 10 ≤ (RiskCalc.RISK_WEIGHTS c).getD 10 := by
  simp only [RiskCalc.RISK_WEIGHTS]
  split_ifs <;> decide

theorem sevMul_getD_ge (s : String) : 7 ≤ (RiskCalc.SEVERITY_MULTIPLIER10 s).getD 10 := by
  simp only [RiskCalc.SEVERITY_MULTIPLIER10]
  split_ifs <;> decide

theorem impactOf_ge (f : Finding) : 7 ≤ RiskCalc.impactOf f := by
  unfold RiskCalc.impactOf RiskCalc.impact_score
  have h1 := riskWeights_getD_ge (f.category.getD "")
  have h2 := sevMul_getD_ge (f.severity.getD "medium")
  have h3 : 70 ≤ (RiskCalc.RISK_WEIGHTS (f.category.getD "")).getD 10 *
      (RiskCalc.SEVERITY_MULTIPLIER10 (f.severity.getD "medium")).getD 10 :=
    le_trans (by norm_num) (Nat.mul_le_mul h1 h2)
  omega

theorem crs_total_cons (f : Finding) (rest : List Finding) :
    (RiskCalc.calculate_risk_score (f :: rest)).total_score =
      min (((f :: rest).map RiskCalc.impactOf).sum) 100 := by
  simp [RiskCalc.calculate_risk_score, riskFold_total, RiskCalc.riskStep]

theorem crs_grade_eq (fs : List Finding) :
    (RiskCalc.calculate_risk_score fs).grade =
      RiskCalc.calculate_grade ((RiskCalc.calculate_risk_score fs).total_score) := by
  cases fs with
  | nil => rfl
  | cons f rest => rfl

theorem ratFloor_intCast (n : ℤ) : ratFloor (n : ℚ) = n := by
  unfold ratFloor
  simp [Rat.num_intCast, Rat.den_intCast, Int.fdiv_one]

theorem pyRound_intCast (n : ℤ) : pyRound (n : ℚ) = n := by
  unfold pyRound
  rw [ratFloor_intCast]
  simp only [sub_self]
  rw [if_pos (by norm_num)]

theorem pyRound2_one : pyRound2 1 = 1 := by
  unfold pyRound2
  have h : ((1 : ℚ) * 100) = ((100 : ℤ) : ℚ) := by norm_num
  rw [h, pyRound_intCast]
  norm_num

theorem pyRound2_zero : pyRound2 0 = 0 := by
  unfold pyRound2
  have h : ((0 : ℚ) * 100) = ((0 : ℤ) : ℚ) := by norm_num
  rw [h, pyRound_intCast]
  norm_num

theorem paWeighted_nil : PowerAnalyzer.paWeighted [] = 0 := by
  simp [PowerAnalyzer.paWeighted]

theorem dpl_one : PowerAnalyzer.determine_power_level 1 = ("균형적", 90) := by
  unfold PowerAnalyzer.determine_power_level
  rw [if_neg (by norm_num), if_neg (by norm_num), if_neg (by norm_num),
    if_neg (by norm_num), if_pos (by norm_num)]

theorem dpl_zero : PowerAnalyzer.determine_power_level 0 = ("을 우위 (드문 경우)", 95) := by
  unfold PowerAnalyzer.determine_power_level
  rw [if_neg (by norm_num), if_neg (by norm_num), if_neg (by norm_num),
    if_neg (by norm_num), if_neg (by norm_num)]

theorem balanceRatio_zero : PowerAnalyzer.balanceRatio 0 0 = 0 := by
  unfold PowerAnalyzer.balanceRatio
  rw [if_pos rfl]

theorem sevMul_mono : ∀ s1 s2 : Sev, s1.rank ≤ s2.rank →
    (RiskCalc.SEVERITY_MULTIPLIER10 s1.str).getD 10 ≤
      (RiskCalc.SEVERITY_MULTIPLIER10 s2.str).getD 10 := by decide

theorem grade_mono (a b : Nat) (h : a ≤ b) :
    RiskCalc.gradeLevel (RiskCalc.calculate_grade b) ≤
      RiskCalc.gradeLevel (RiskCalc.calculate_grade a) := by
  unfold RiskCalc.calculate_grade
  split_ifs <;> first | decide | (exfalso; omega)

/-! ## Claim theorems -/

/-- Claim C1 (counterexample): for the single finding
{category: unilateral_termination, severity: critical} the computed grade is
not "D (위험)" — a total score of 45 falls in the ≥40 band, which is "C". -/
theorem C1_single_critical_not_grade_D :
    (RiskCalc.calculate_risk_score
      [⟨some "unilateral_termination", some "critical"⟩]).grade ≠ "D (위험)" := by decide

/-- Claim C1 (amended): for the single finding
{category: unilateral_termination, severity: critical} the Risk Aggregator
computes impact = floor(30 × 1.5) = 45, total_score = 45, and assigns grade
"C (주의 필요)". -/
theorem C1_single_critical_example :
    (RiskCalc.calculate_risk_score
      [⟨some "unilateral_termination", some "critical"⟩]).total_score = 45 ∧
    (RiskCalc.calculate_risk_score
      [⟨some "unilateral_termination", some "critical"⟩]).findings_with_impact =
      [(⟨some "unilateral_termination", some "critical"⟩, 45)] ∧
    (RiskCalc.calculate_risk_score
      [⟨some "unilateral_termination", some "critical"⟩]).grade = "C (주의 필요)" := by decide

/-- Claim C2 (counterexample): power_analyzer's text-driven analysis of empty
text does not return a neutral zero-count result — it returns the error
record {"error": "계약서 내용이 없습니다"}. -/
theorem C2_pa_empty_text_is_error :
    PowerAnalyzer.analyze_power_balance [] = .err "계약서 내용이 없습니다" := by decide

/-- Claim C2 (amended): for empty contract text, index.py's text-driven
balance analysis returns the defined neutral result (zero keyword counts,
balance_score 50, level "균형적"), while power_analyzer's text-driven
analysis returns its explicit error record instead of a neutral result. -/
theorem C2_empty_text_behaviour :
    Index.analyze_power_balance [] =
      { balance_score := 50, balance_level := "균형적", balance_color := "green",
        employer_rights_count := 0, employee_obligations_count := 0,
        analysis := "계약서에서 갑의 권리 표현이 0회, 을의 의무 표현이 0회 발견되었습니다." } ∧
    (PowerAnalyzer.analyze_power_balance []).isErr = true := by decide

/-- Claim C9 (counterexample): on the risk_calculator scoring path a missing
severity is NOT treated as "low": the single category-less finding with no
severity scores 10 (the "medium"/default multiplier 1.0 on base weight 10),
whereas an explicit "low" scores int(10 × 0.7) = 7. -/
theorem C9_risk_calc_default_not_low :
    (RiskCalc.calculate_risk_score [⟨none, none⟩]).total_score = 10 ∧
    (RiskCalc.calculate_risk_score [⟨none, some "medium"⟩]).total_score = 10 ∧
    (RiskCalc.calculate_risk_score [⟨none, some "low"⟩]).total_score = 7 := by decide

/-- Claim C9 (amended): the missing-severity default is path-specific —
"low" in index.py's `analyze_contract_risk`, but "medium" in
risk_calculator's `calculate_risk_score` and on both severity-weighted
power-balance paths: each scorer treats a finding/item without a severity
exactly like one carrying its own path's default severity. -/
theorem C9_path_specific_defaults (cat t : Option String) :
    RiskCalc.impactOf ⟨cat, none⟩ = RiskCalc.impactOf ⟨cat, some "medium"⟩ ∧
    (RiskCalc.calculate_risk_score [⟨cat, none⟩]).total_score =
      (RiskCalc.calculate_risk_score [⟨cat, some "medium"⟩]).total_score ∧
    Index.analyze_contract_risk [⟨cat, none⟩] =
      Index.analyze_contract_risk [⟨cat, some "low"⟩] ∧
    PowerAnalyzer.paItemWeight ⟨t, none⟩ = PowerAnalyzer.paItemWeight ⟨t, some "medium"⟩ ∧
    PowerAnalyzer.calculate_power_balance_weighted [⟨t, none⟩] [] =
      PowerAnalyzer.calculate_power_balance_weighted [⟨t, some "medium"⟩] [] ∧
    Index.wItemWeight ⟨t, none⟩ = Index.wItemWeight ⟨t, some "medium"⟩ ∧
    (Index.analyze_power_balance_weighted [⟨t, none⟩] []).map (fun r => r.balance_score) =
      (Index.analyze_power_balance_weighted [⟨t, some "medium"⟩] []).map (fun r => r.balance_score) :=
  ⟨rfl, rfl, rfl, rfl, rfl, rfl, rfl⟩

/-- Claim C6: index.py's pre-counted balance computation returns exactly the
spec's percentage formula round(employee / (employee + employer) × 100) (50
when the counts sum to zero), classifies it with the spec's thresholds
(≥70 "을에게 매우 불리" = very unfavorable to employee, ≥60 "을에게 불리",
≥40 "균형적" = balanced, ≥30 "갑에게 불리", else "갑에게 매우 불리"), and in
particular maps (0, 0) to balance_score 50 and level "균형적". -/
theorem C6_power_score_matches_spec (e r : Nat) :
    (Index.calculate_power_score e r).balance_score = SpecModel.spec_balance_score e r ∧
    (Index.calculate_power_score e r).balance_level =
      SpecModel.spec_balance_level ((Index.calculate_power_score e r).balance_score) ∧
    (Index.calculate_power_score 0 0).balance_score = 50 ∧
    (Index.calculate_power_score 0 0).balance_level = "균형적" := by
  refine ⟨rfl, ?_, by decide, by decide⟩
  simp only [Index.calculate_power_score, SpecModel.spec_balance_level]
  split_ifs <;> rfl

/-- Claim C7 (counterexample): two item lists with equal severity-weighted
sums (both empty, each summing to 0) do NOT yield ratio 1.0 / "균형적" /
fairness 90 — the zero-employer branch sets the ratio to the raw employee
sum 0, classified "을 우위 (드문 경우)" with fairness score 95. -/
theorem C7_equal_zero_sums_not_balanced :
    PowerAnalyzer.paWeighted [] = PowerAnalyzer.paWeighted [] ∧
    (PowerAnalyzer.calculate_power_balance_weighted [] []).balance_ratio ≠ 1 ∧
    (PowerAnalyzer.calculate_power_balance_weighted [] []).power_level ≠ "균형적" ∧
    (PowerAnalyzer.calculate_power_balance_weighted [] []).power_level = "을 우위 (드문 경우)" ∧
    (PowerAnalyzer.calculate_power_balance_weighted [] []).fairness_score = 95 := by
  refine ⟨rfl, ?_, ?_, ?_, ?_⟩ <;>
    simp only [PowerAnalyzer.calculate_power_balance_weighted, paWeighted_nil,
      balanceRatio_zero, dpl_zero, pyRound2_zero] <;> simp

/-- Claim C7 (amended): for employer/employee item lists whose
severity-weighted sums are equal and nonzero, power_analyzer's weighted
balance computation yields balance_ratio 1.0, power level "균형적"
(balanced) and fairness score 90. -/
theorem C7_equal_weighted_sums_balanced (employer_items employee_items : List PowerItem)
    (hne : PowerAnalyzer.paWeighted employer_items ≠ 0)
    (heq : PowerAnalyzer.paWeighted employer_items = PowerAnalyzer.paWeighted employee_items) :
    (PowerAnalyzer.calculate_power_balance_weighted employer_items employee_items).balance_ratio = 1 ∧
    (PowerAnalyzer.calculate_power_balance_weighted employer_items employee_items).power_level = "균형적" ∧
    (PowerAnalyzer.calculate_power_balance_weighted employer_items employee_items).fairness_score = 90 := by
  have hr : PowerAnalyzer.balanceRatio (PowerAnalyzer.paWeighted employer_items)
      (PowerAnalyzer.paWeighted employee_items) = 1 := by
    unfold PowerAnalyzer.balanceRatio
    rw [if_neg hne, ← heq, div_self hne]
  refine ⟨?_, ?_, ?_⟩ <;>
    simp only [PowerAnalyzer.calculate_power_balance_weighted, hr, dpl_one, pyRound2_one]

/-- Witness for C7: employer list [{severity: medium}] (weight 1.0) and
employee list [{severity: low}, {severity: low}] (weights 0.5 + 0.5 = 1.0)
have equal nonzero weighted sums and are classified balanced with fairness
score 90. -/
theorem C7_equal_weighted_sums_balanced_witness :
    PowerAnalyzer.paWeighted [⟨none, some "medium"⟩] ≠ 0 ∧
    PowerAnalyzer.paWeighted [⟨none, some "medium"⟩] =
      PowerAnalyzer.paWeighted [⟨none, some "low"⟩, ⟨none, some "low"⟩] ∧
    ((PowerAnalyzer.calculate_power_balance_weighted [⟨none, some "medium"⟩]
        [⟨none, some "low"⟩, ⟨none, some "low"⟩]).balance_ratio = 1 ∧
     (PowerAnalyzer.calculate_power_balance_weighted [⟨none, some "medium"⟩]
        [⟨none, some "low"⟩, ⟨none, some "low"⟩]).power_level = "균형적" ∧
     (PowerAnalyzer.calculate_power_balance_weighted [⟨none, some "medium"⟩]
        [⟨none, some "low"⟩, ⟨none, some "low"⟩]).fairness_score = 90) := by
  have hm : PowerAnalyzer.paItemWeight ⟨none, some "medium"⟩ = 1 := rfl
  have hl : PowerAnalyzer.paItemWeight ⟨none, some "low"⟩ = 1 / 2 := rfl
  have h1 : PowerAnalyzer.paWeighted [⟨none, some "medium"⟩] ≠ 0 := by
    simp [PowerAnalyzer.paWeighted, hm]
  have h2 : PowerAnalyzer.paWeighted [⟨none, some "medium"⟩] =
      PowerAnalyzer.paWeighted [⟨none, some "low"⟩, ⟨none, some "low"⟩] := by
    simp [PowerAnalyzer.paWeighted, hm, hl]
    norm_num
  exact ⟨h1, h2, C7_equal_weighted_sums_balanced _ _ h1 h2⟩

set_option maxRecDepth 8000 in
/-- Claim C3 (counterexample): for the 502-character text
'제한조' followed by 499 'x's — which is longer than the 500-character chunk
size and contains both article markers, so article-based splitting is used —
the chunked analysis reports 0 employee-obligation keyword occurrences while
a single full-text pass finds 1 (the keyword "제한" is destroyed because the
split deletes every '제'). -/
theorem C3_chunked_count_differs :
    PowerAnalyzer.PABalance.employeeCount?
        (PowerAnalyzer.analyze_power_balance_chunked PowerAnalyzer.articleMarkerText 500) ≠
      some (countKeywords PowerAnalyzer.EMPLOYEE_OBLIGATIONS_KEYWORDS
        PowerAnalyzer.articleMarkerText) := by decide

set_option maxRecDepth 8000 in
/-- Claim C3 (amended): article-based splitting does not preserve the
full-text keyword counts: the split deletes every occurrence of the marker
character '제', so a keyword containing '제' (the employee-obligations
keyword "제한") can be destroyed, and the summed chunk counts can be
strictly smaller than the counts of a single full-text pass.  Witnessed by
the article-marker text: splitting is used (length > 500, both markers
present), the chunked employee count is 0, yet the full-text pass counts the
one "제한" occurrence. -/
theorem C3_chunked_undercounts :
    500 < PowerAnalyzer.articleMarkerText.length ∧
    '제' ∈ PowerAnalyzer.articleMarkerText ∧
    '조' ∈ PowerAnalyzer.articleMarkerText ∧
    PowerAnalyzer.PABalance.employeeCount?
        (PowerAnalyzer.analyze_power_balance_chunked PowerAnalyzer.articleMarkerText 500) =
      some 0 ∧
    PowerAnalyzer.PABalance.employerCount?
        (PowerAnalyzer.analyze_power_balance_chunked PowerAnalyzer.articleMarkerText 500) =
      some (countKeywords PowerAnalyzer.EMPLOYER_RIGHTS_KEYWORDS
        PowerAnalyzer.articleMarkerText) ∧
    countKeywords PowerAnalyzer.EMPLOYEE_OBLIGATIONS_KEYWORDS
      PowerAnalyzer.articleMarkerText = 1 ∧
    countOccs "제한".data PowerAnalyzer.articleMarkerText = 1 := by decide

/-- Claim C5: for every findings list, risk_calculator's total_score lies in
[0, 100], and it is 0 exactly when the findings list is empty (every
finding's impact is at least int(10 × 0.7) = 7 > 0, and the total is capped
at 100). -/
theorem C5_total_score_bounds (fs : List Finding) :
    0 ≤ (RiskCalc.calculate_risk_score fs).total_score ∧
    (RiskCalc.calculate_risk_score fs).total_score ≤ 100 ∧
    ((RiskCalc.calculate_risk_score fs).total_score = 0 ↔ fs = []) := by
  cases fs with
  | nil => exact ⟨Nat.zero_le _, by decide, by simp [RiskCalc.calculate_risk_score]⟩
  | cons f rest =>
    refine ⟨Nat.zero_le _, ?_, ?_⟩
    · rw [crs_total_cons]
      exact min_le_right _ _
    · rw [crs_total_cons]
      have h7 := impactOf_ge f
      simp only [List.map_cons, List.sum_cons]
      constructor
      · intro h
        rcases Nat.min_eq_zero_iff.mp h with h0 | h0 <;> omega
      · intro h
        exact absurd h (List.cons_ne_nil f rest)

/-- Claim C8: raising the severity of any single finding (in the strict
order low < medium < high < critical) never decreases risk_calculator's
total_score, and the grade — a function of the total alone — either stays
or moves toward "F" (its `gradeLevel`, with F = 0 worst and A = 4 safest,
does not increase). -/
theorem C8_severity_monotone (pre post : List Finding) (f : Finding) (s1 s2 : Sev)
    (h : s1.rank < s2.rank) :
    (RiskCalc.calculate_risk_score
        (pre ++ { f with severity := some s1.str } :: post)).total_score ≤
      (RiskCalc.calculate_risk_score
        (pre ++ { f with severity := some s2.str } :: post)).total_score ∧
    RiskCalc.gradeLevel ((RiskCalc.calculate_risk_score
        (pre ++ { f with severity := some s2.str } :: post)).grade) ≤
      RiskCalc.gradeLevel ((RiskCalc.calculate_risk_score
        (pre ++ { f with severity := some s1.str } :: post)).grade) ∧
    (RiskCalc.calculate_risk_score
        (pre ++ { f with severity := some s1.str } :: post)).grade =
      RiskCalc.calculate_grade ((RiskCalc.calculate_risk_score
        (pre ++ { f with severity := some s1.str } :: post)).total_score) ∧
    (RiskCalc.calculate_risk_score
        (pre ++ { f with severity := some s2.str } :: post)).grade =
      RiskCalc.calculate_grade ((RiskCalc.calculate_risk_score
        (pre ++ { f with severity := some s2.str } :: post)).total_score) := by
  have htot : ∀ s : Sev,
      (RiskCalc.calculate_risk_score
        (pre ++ { f with severity := some s.str } :: post)).total_score =
      min ((pre.map RiskCalc.impactOf).sum +
        (RiskCalc.impact_score (f.category.getD "") s.str +
          (post.map RiskCalc.impactOf).sum)) 100 := by
    intro s
    cases pre with
    | nil =>
      rw [List.nil_append, crs_total_cons]
      simp [RiskCalc.impactOf]
    | cons p ps =>
      rw [List.cons_append, crs_total_cons]
      simp [RiskCalc.impactOf]
      congr 1
      omega
  have himp : RiskCalc.impact_score (f.category.getD "") s1.str ≤
      RiskCalc.impact_score (f.category.getD "") s2.str := by
    unfold RiskCalc.impact_score
    exact Nat.div_le_div_right
      (Nat.mul_le_mul_left _ (sevMul_mono s1 s2 (Nat.le_of_lt h)))
  have hle : (RiskCalc.calculate_risk_score
      (pre ++ { f with severity := some s1.str } :: post)).total_score ≤
      (RiskCalc.calculate_risk_score
        (pre ++ { f with severity := some s2.str } :: post)).total_score := by
    rw [htot s1, htot s2]
    exact min_le_min (by omega) (le_refl 100)
  exact ⟨hle,
    by rw [crs_grade_eq, crs_grade_eq]; exact grade_mono _ _ hle,
    crs_grade_eq _, crs_grade_eq _⟩

/-- Witness for C8: raising the one finding's severity from low to critical
raises the total from 7 to 15 and the grade stays "A (안전)". -/
theorem C8_severity_monotone_witness :
    Sev.low.rank < Sev.critical.rank ∧
    ((RiskCalc.calculate_risk_score
        [{ (⟨none, none⟩ : Finding) with severity := some Sev.low.str }]).total_score ≤
      (RiskCalc.calculate_risk_score
        [{ (⟨none, none⟩ : Finding) with severity := some Sev.critical.str }]).total_score ∧
    RiskCalc.gradeLevel ((RiskCalc.calculate_risk_score
        [{ (⟨none, none⟩ : Finding) with severity := some Sev.critical.str }]).grade) ≤
      RiskCalc.gradeLevel ((RiskCalc.calculate_risk_score
        [{ (⟨none, none⟩ : Finding) with severity := some Sev.low.str }]).grade) ∧
    (RiskCalc.calculate_risk_score
        [{ (⟨none, none⟩ : Finding) with severity := some Sev.low.str }]).grade =
      RiskCalc.calculate_grade ((RiskCalc.calculate_risk_score
        [{ (⟨none, none⟩ : Finding) with severity := some Sev.low.str }]).total_score) ∧
    (RiskCalc.calculate_risk_score
        [{ (⟨none, none⟩ : Finding) with severity := some Sev.critical.str }]).grade =
      RiskCalc.calculate_grade ((RiskCalc.calculate_risk_score
        [{ (⟨none, none⟩ : Finding) with severity := some Sev.critical.str }]).total_score)) :=
  ⟨by decide, C8_severity_monotone [] [] ⟨none, none⟩ .low .critical (by decide)⟩

theorem sevIncr_unknown (sc : Index.SevCounts) (s : String)
    (h : knownSeverity s = false) : sc.incr s = .error "KeyError" := by
  simp only [knownSeverity, Bool.or_eq_false_iff] at h
  obtain ⟨⟨⟨h1, h2⟩, h3⟩, h4⟩ := h
  unfold Index.SevCounts.incr
  rw [if_neg (by simp [h1]), if_neg (by simp [h2]), if_neg (by simp [h3]),
    if_neg (by simp [h4])]

theorem sevIncr_known (sc : Index.SevCounts) (s : String)
    (h : knownSeverity s = true) : ∃ sc', sc.incr s = .ok sc' := by
  simp only [knownSeverity, Bool.or_eq_true, beq_iff_eq] at h
  unfold Index.SevCounts.incr
  rcases h with ((h | h) | h) | h <;> subst h <;> exact ⟨_, rfl⟩

theorem riskLoop_isOk (fs : List Finding) :
    ∀ (total : Nat) (cat : List (String × Nat)) (sc : Index.SevCounts),
      (Index.riskLoop fs total cat sc).isOk =
        fs.all (fun f => knownSeverity (f.severity.getD "low")) := by
  induction fs with
  | nil => intro total cat sc; rfl
  | cons f rest ih =>
    intro total cat sc
    simp only [Index.riskLoop, List.all_cons]
    cases hk : knownSeverity (f.severity.getD "low") with
    | false =>
      rw [sevIncr_unknown _ _ hk]
      simp [Except.isOk, Except.toBool]
    | true =>
      obtain ⟨sc', hsc⟩ := sevIncr_known sc _ hk
      rw [hsc]
      simp [ih]

theorem riskLoop_total_map (fs : List Finding) :
    ∀ (total : Nat) (cat : List (String × Nat)) (sc : Index.SevCounts),
      fs.all (fun f => knownSeverity (f.severity.getD "low")) = true →
      (Index.riskLoop fs total cat sc).map (fun t => t.1) =
        .ok (total + (fs.map
          (fun f => (Index.severity_weights_idx (f.severity.getD "low")).getD 0)).sum) := by
  induction fs with
  | nil => intro total cat sc h; simp [Index.riskLoop, Except.map]
  | cons f rest ih =>
    intro total cat sc h
    simp only [List.all_cons, Bool.and_eq_true] at h
    obtain ⟨sc', hsc⟩ := sevIncr_known sc _ h.1
    simp only [Index.riskLoop, List.map_cons, List.sum_cons]
    rw [hsc, ih _ _ _ h.2]
    simp only [Except.ok.injEq]
    omega

theorem wSevLoop_isOk (items : List PowerItem) :
    ∀ sc : Index.SevCounts,
      (Index.wSevLoop items sc).isOk =
        items.all (fun i => knownSeverity (i.severity.getD "medium")) := by
  induction items with
  | nil => intro sc; rfl
  | cons i rest ih =>
    intro sc
    simp only [Index.wSevLoop, List.all_cons]
    cases hk : knownSeverity (i.severity.getD "medium") with
    | false =>
      rw [sevIncr_unknown _ _ hk]
      simp [Except.isOk, Except.toBool]
    | true =>
      obtain ⟨sc', hsc⟩ := sevIncr_known sc _ hk
      rw [hsc]
      simp [ih]

/-- Claim C4 (counterexample): an item or finding whose severity string is
outside {critical, high, medium, low} is not scored with a silent default on
the index.py entry points — both `analyze_power_balance_weighted` and
`analyze_contract_risk` raise a `KeyError` (modelled as `Except.error`) from
the severity-counting dict subscript. -/
theorem C4_unknown_severity_raises :
    Index.analyze_power_balance_weighted [⟨none, some "아주높음"⟩] [] =
      .error "KeyError" ∧
    (Index.analyze_contract_risk [⟨none, some "아주높음"⟩]).isOk = false := by decide

/-- Claim C4 (amended): unknown categories are always defaulted (weight 10)
and unknown severities are silently defaulted in every weight lookup
(multiplier 1.0 / weight 1.0 / weight 0 / weight 2 on the respective paths),
so risk_calculator's and power_analyzer's scorers accept every input; but
the two index.py entry points that subscript their severity-count dicts
return normally exactly when every present severity (after the path's
missing-value default) is one of the four known values, and raise `KeyError`
otherwise. -/
theorem C4_unknown_value_handling :
    (∀ fs : List Finding, (Index.analyze_contract_risk fs).isOk =
        fs.all (fun f => knownSeverity (f.severity.getD "low"))) ∧
    (∀ employee_items employer_items : List PowerItem,
        (Index.analyze_power_balance_weighted employee_items employer_items).isOk =
          (employee_items.all (fun i => knownSeverity (i.severity.getD "medium")) &&
           employer_items.all (fun i => knownSeverity (i.severity.getD "medium")))) ∧
    (∀ s : String, knownSeverity s = false →
        (RiskCalc.SEVERITY_MULTIPLIER10 s).getD 10 = 10 ∧
        (PowerAnalyzer.severity_weights_pa s).getD 1 = 1 ∧
        (Index.severity_weights_idx s).getD 0 = 0 ∧
        (Index.severity_weights_w s).getD 2 = 2) ∧
    (∀ c : String, RiskCalc.RISK_WEIGHTS c = none →
        (RiskCalc.RISK_WEIGHTS c).getD 10 = 10) := by
  refine ⟨?_, ?_, ?_, ?_⟩
  · intro fs
    unfold Index.analyze_contract_risk
    have h := riskLoop_isOk fs 0 [] ⟨0, 0, 0, 0⟩
    cases hr : Index.riskLoop fs 0 [] ⟨0, 0, 0, 0⟩ with
    | error e => rw [hr] at h; simpa [Except.isOk, Except.toBool] using h
    | ok t =>
      obtain ⟨a, b, c⟩ := t
      rw [hr] at h
      simpa [Except.isOk, Except.toBool] using h
  · intro employee_items employer_items
    unfold Index.analyze_power_balance_weighted
    have he := wSevLoop_isOk employee_items (⟨0, 0, 0, 0⟩ : Index.SevCounts)
    have hrr := wSevLoop_isOk employer_items (⟨0, 0, 0, 0⟩ : Index.SevCounts)
    cases h1 : Index.wSevLoop employee_items ⟨0, 0, 0, 0⟩ with
    | error e =>
      rw [h1] at he
      simp only [Except.isOk, Except.toBool] at he
      rw [← he]
      simp [Except.isOk, Except.toBool]
    | ok sce =>
      rw [h1] at he
      simp only [Except.isOk, Except.toBool] at he
      cases h2 : Index.wSevLoop employer_items ⟨0, 0, 0, 0⟩ with
      | error e =>
        rw [h2] at hrr
        simp only [Except.isOk, Except.toBool] at hrr
        rw [← he, ← hrr]
        simp [Except.isOk, Except.toBool]
      | ok scr =>
        rw [h2] at hrr
        simp only [Except.isOk, Except.toBool] at hrr
        rw [← he, ← hrr]
        simp [Except.isOk, Except.toBool]
  · intro s h
    simp only [knownSeverity, Bool.or_eq_false_iff] at h
    obtain ⟨⟨⟨h1, h2⟩, h3⟩, h4⟩ := h
    refine ⟨?_, ?_, ?_, ?_⟩ <;>
      simp [RiskCalc.SEVERITY_MULTIPLIER10, PowerAnalyzer.severity_weights_pa,
        Index.severity_weights_idx, Index.severity_weights_w, h1, h2, h3, h4]
  · intro c h
    rw [h]
    rfl

/-- Witness for C4: the unknown severity "보통" and the unknown category
"misc_category" hit the documented defaults in all four weight tables. -/
theorem C4_unknown_value_handling_witness :
    knownSeverity "보통" = false ∧
    ((RiskCalc.SEVERITY_MULTIPLIER10 "보통").getD 10 = 10 ∧
     (PowerAnalyzer.severity_weights_pa "보통").getD 1 = 1 ∧
     (Index.severity_weights_idx "보통").getD 0 = 0 ∧
     (Index.severity_weights_w "보통").getD 2 = 2) ∧
    RiskCalc.RISK_WEIGHTS "misc_category" = none ∧
    (RiskCalc.RISK_WEIGHTS "misc_category").getD 10 = 10 :=
  ⟨by decide, C4_unknown_value_handling.2.2.1 "보통" (by decide), by decide,
   C4_unknown_value_handling.2.2.2 "misc_category" (by decide)⟩

/-- Claim C10 (counterexample): index.py's risk scorer does not return a
total for every findings list — a finding with the unknown severity "상"
contributes weight 0 to the running total but then raises a `KeyError` from
`severity_counts[severity] += 1`, so no result (and no total_score) is
produced. -/
theorem C10_unknown_severity_no_total :
    Index.analyze_contract_risk [⟨none, some "상"⟩] = .error "KeyError" := by decide

/-- Claim C10 (amended): for every findings list whose effective severities
(missing defaults to "low") are among the four known values, index.py's risk
scorer returns total_score equal to the plain sum of the per-finding weights
(critical 10, high 7, medium 4, low 2) with no upper cap; in particular
eleven critical findings yield total_score 110 > 100.  (A present unknown
severity raises `KeyError` instead of contributing 0.) -/
theorem C10_index_total_uncapped :
    (∀ fs : List Finding,
      fs.all (fun f => knownSeverity (f.severity.getD "low")) = true →
      (Index.analyze_contract_risk fs).map (fun r => r.total_score) =
        .ok ((fs.map
          (fun f => (Index.severity_weights_idx (f.severity.getD "low")).getD 0)).sum)) ∧
    (Index.analyze_contract_risk
        (List.replicate 11 ⟨none, some "critical"⟩)).map (fun r => r.total_score) =
      .ok 110 ∧
    100 < 110 := by
  refine ⟨?_, by decide, by decide⟩
  intro fs h
  have h2 := riskLoop_total_map fs 0 [] ⟨0, 0, 0, 0⟩ h
  unfold Index.analyze_contract_risk
  cases hr : Index.riskLoop fs 0 [] ⟨0, 0, 0, 0⟩ with
  | error e => rw [hr] at h2; simp [Except.map] at h2
  | ok t =>
    obtain ⟨a, b, c⟩ := t
    rw [hr] at h2
    simp only [Except.map] at h2 ⊢
    simpa using h2

/-- Witness for C10: the two-finding list [{severity: high}, {}] has only
known effective severities and totals 7 + 2 = 9. -/
theorem C10_index_total_uncapped_witness :
    ([(⟨none, some "high"⟩ : Finding), ⟨none, none⟩].all
        (fun f => knownSeverity (f.severity.getD "low")) = true) ∧
    (Index.analyze_contract_risk [⟨none, some "high"⟩, ⟨none, none⟩]).map
        (fun r => r.total_score) = .ok 9 :=
  ⟨by decide, C10_index_total_uncapped.1 [⟨none, some "high"⟩, ⟨none, none⟩] (by decide)⟩

end GapEul
